import Mathlib

/-
Verification of the recognizer registry provider: a shallow embedding of
presidio_analyzer/recognizer_registry_provider.py, followed by theorems
about the configuration resolution and registry assembly it performs.
-/

namespace Presidio

/-- Decidable equality on Except values, used to evaluate concrete runs. -/
instance exceptDecEq {ε α : Type} [DecidableEq ε] [DecidableEq α] :
    DecidableEq (Except ε α) := fun a b =>
  match a, b with
  | .error e, .error e2 =>
    if h : e = e2 then .isTrue (by rw [h])
    else .isFalse (by intro hx; injection hx; exact h (by assumption))
  | .error _, .ok _ => .isFalse (by intro hx; exact Except.noConfusion hx)
  | .ok _, .error _ => .isFalse (by intro hx; exact Except.noConfusion hx)
  | .ok v, .ok v2 =>
    if h : v = v2 then .isTrue (by rw [h])
    else .isFalse (by intro hx; injection hx; exact h (by assumption))

/-- Python exception kinds that the registry provider code can raise. -/
inductive PyErr where
  | valueError
  | typeError
  | indexError
deriving DecidableEq, Repr

/-- A pattern definition: name, regex source text, confidence score. -/
structure Pattern where
  name : String
  regex : String
  score : ℚ
deriving DecidableEq, Repr

/-- One element of a supported_languages list: either a plain language code
string or a mapping carrying language and context keys. -/
inductive SLElem where
  | code (s : String)
  | scopedMap (language : String) (context : Option (List String))
deriving DecidableEq, Repr

/-- The fields of a structured (mapping) recognizer entry. Option models key
absence; name is required for the structured form. -/
structure RecFields where
  name : String
  type? : Option String
  enabled? : Option Bool
  supported_language? : Option String
  supported_languages? : Option (List SLElem)
  context? : Option (List String)
  supported_entity? : Option String
  patterns? : Option (List Pattern)
  global_regex_flags? : Option Nat
deriving DecidableEq, Repr

/-- A recognizer entry: a bare name string or a structured mapping. -/
inductive RecEntry where
  | bare (name : String)
  | struct (fields : RecFields)
deriving DecidableEq, Repr

/-- A language scope as emitted by get_recognizer_languages: the value bound
to the supported_language key and the value bound to the context key. The
language slot holds whatever value was taken from the list, hence SLElem. -/
structure RecScope where
  supported_language : SLElem
  context : Option (List String)
deriving DecidableEq, Repr

/-- Matching-engine flag constants, with the numeric values of the Python re
module. -/
def RE_IGNORECASE : Nat := 2

def RE_MULTILINE : Nat := 8

def RE_DOTALL : Nat := 16

/-- The default value of global_regex_flags from default_values. -/
def default_global_regex_flags : Nat := RE_DOTALL ||| RE_MULTILINE ||| RE_IGNORECASE

/-- The default value of supported_languages from default_values. -/
def default_supported_languages : List String := ["en"]

/-- A constructed detector instance, keeping the fields the provider sets or
later overwrites. -/
structure Detector where
  ctorName : String
  isPattern : Bool
  name? : Option String
  supported_language? : Option SLElem
  context? : Option (List String)
  supported_entity? : Option String
  patterns : List Pattern
  global_regex_flags : Nat
deriving DecidableEq, Repr

/-- The keyword arguments assembled for a detector constructor. -/
structure Kwargs where
  name? : Option String
  supported_language? : Option SLElem
  context? : Option (List String)
  supported_entity? : Option String
  patterns? : Option (List Pattern)
  global_regex_flags? : Option Nat
deriving DecidableEq, Repr

/-- Modelled from the spec: the built-in detector-type library
(presidio_analyzer.predefined_recognizers, not part of this source tree)
offers a name-to-constructor lookup; the model records for each constructor
whether the built detector is pattern-based. -/
structure PredefCtor where
  isPattern : Bool
deriving DecidableEq, Repr

/-- Modelled from the spec: the name-to-constructor lookup of the built-in
detector-type library; a missing name yields no constructor. -/
abbrev PredefLib : Type := String → Option PredefCtor

/-- Modelled from the spec: constructing a predefined detector with the given
keyword parameters; construction records the keyword parameters it received. -/
def mk_predef_detector (c : PredefCtor) (n : String) (k : Kwargs) : Detector :=
  ⟨n, c.isPattern, k.name?, k.supported_language?, k.context?, k.supported_entity?,
    k.patterns?.getD [], k.global_regex_flags?.getD default_global_regex_flags⟩

/-- Modelled from the spec: PatternRecognizer.from_dict (not part of this
source tree) builds one pattern-based detector from a field mapping; it
requires a non-empty patterns list and a supported_entity, and absence of
either is a construction-time error surfaced to the caller. -/
def pattern_recognizer_from_dict (k : Kwargs) : Except PyErr Detector :=
  if k.patterns?.getD [] = [] then .error .valueError
  else if k.supported_entity?.isNone then .error .valueError
  else .ok ⟨"PatternRecognizer", true, k.name?, k.supported_language?, k.context?,
    k.supported_entity?, k.patterns?.getD [],
    k.global_regex_flags?.getD default_global_regex_flags⟩

/-- A registry configuration mapping restricted to its recognized top-level
keys; Option models key absence. -/
structure Config where
  supported_languages? : Option (List String)
  recognizers? : Option (List RecEntry)
  global_regex_flags? : Option Nat
deriving DecidableEq, Repr

/-- The empty configuration mapping. -/
def configEmpty : Config := ⟨none, none, none⟩

/-- Outcome of opening and parsing one configuration file. -/
inductive FileRes where
  | parsed (c : Config)
  | ioError
  | parseError
deriving DecidableEq, Repr

/-- add_missing_keys: fill each key absent from the configuration from the
defaults document, key by key (shallow merge, caller keys win). -/
def add_missing_keys (c d : Config) : Config :=
  ⟨c.supported_languages? <|> d.supported_languages?,
   c.recognizers? <|> d.recognizers?,
   c.global_regex_flags? <|> d.global_regex_flags?⟩

/-- Python truthiness of the optional conf_file argument: a None or empty
path string is falsy. -/
def cf_truthy : Option String → Bool
  | none => false
  | some s => !(s == "")

/-- Python truthiness of the optional registry_configuration argument: a None
or empty mapping is falsy. -/
def rc_truthy : Option Config → Bool
  | none => false
  | some c => !(c == configEmpty)

/-- get_configuration: resolve the configuration from the optional inline
mapping and optional file path, layering it over the packaged default
document. The file system is a parameter mapping paths to read and parse
outcomes; a read error or a parse error of the given file falls back to the
packaged default document. -/
def get_configuration (fs : String → FileRes) (defaultDoc : Config)
    (conf_file : Option String) (registry_configuration : Option Config) :
    Except PyErr Config :=
  if cf_truthy conf_file && rc_truthy registry_configuration then
    .error .valueError
  else
    let configuration :=
      if rc_truthy registry_configuration then registry_configuration.getD configEmpty
      else configEmpty
    if !(cf_truthy conf_file) then .ok (add_missing_keys configuration defaultDoc)
    else
      match fs (conf_file.getD "") with
      | .parsed d => .ok (add_missing_keys configuration d)
      | .ioError => .ok (add_missing_keys configuration defaultDoc)
      | .parseError => .ok (add_missing_keys configuration defaultDoc)

/-- Containment of a needle at the head of a character list. -/
def chars_start_with : List Char → List Char → Bool
  | [], _ => true
  | _ :: _, [] => false
  | n :: ns, h :: hs => n == h && chars_start_with ns hs

/-- Containment of a needle anywhere in a character list. -/
def chars_contain (needle : List Char) : List Char → Bool
  | [] => chars_start_with needle []
  | h :: hs => chars_start_with needle (h :: hs) || chars_contain needle hs

/-- Substring containment on strings, the semantics of the Python in-operator
on str operands. -/
def str_contains_sub (hay needle : String) : Bool :=
  chars_contain needle.data hay.data

/-- is_recognizer_enabled: on a mapping this reads the enabled key with
default true; on a bare string the in-operator is a substring test, and when
the substring occurs the subsequent string indexing with a string key raises
TypeError. -/
def is_recognizer_enabled : RecEntry → Except PyErr Bool
  | .bare n => if str_contains_sub n "enabled" then .error .typeError else .ok true
  | .struct f => .ok (f.enabled?.getD true)

/-- get_recognizer_name: the bare string itself, or the name field. -/
def get_recognizer_name : RecEntry → String
  | .bare n => n
  | .struct f => f.name

/-- get_recognizer_context: None for bare strings, else the context key. -/
def get_recognizer_context : RecEntry → Option (List String)
  | .bare _ => none
  | .struct f => f.context?

/-- Each element of a scoped supported_languages list is indexed with the
language and context keys; indexing a plain string with a string key raises
TypeError. -/
def scoped_elem_to_scope : SLElem → Except PyErr RecScope
  | .code _ => .error .typeError
  | .scopedMap l c => .ok ⟨.code l, c⟩

/-- Sequential effectful map over a list, stopping at the first error, the
evaluation order of a Python list comprehension. -/
def mapExcept (g : α → Except PyErr β) : List α → Except PyErr (List β)
  | [] => .ok []
  | a :: as =>
    match g a with
    | .error e => .error e
    | .ok b =>
      match mapExcept g as with
      | .error e => .error e
      | .ok bs => .ok (b :: bs)

/-- get_recognizer_languages: compute the language scopes of one entry given
the registry-wide supported languages. Indexing element 0 of an empty
supported_languages list raises IndexError. -/
def get_recognizer_languages (supportedLanguages : List String) :
    RecEntry → Except PyErr (List RecScope)
  | .bare _ => .ok (supportedLanguages.map fun l => ⟨.code l, none⟩)
  | .struct f =>
    match f.supported_languages? with
    | none => .ok (supportedLanguages.map fun l => ⟨.code l, f.context?⟩)
    | some [] => .error .indexError
    | some (e :: rest) =>
      match e with
      | .code _ => .ok ((e :: rest).map fun x => ⟨x, none⟩)
      | .scopedMap _ _ => mapExcept scoped_elem_to_scope (e :: rest)

/-- Classification predicate of the predefined list in split_recognizers. -/
def is_predefined_entry : RecEntry → Bool
  | .bare _ => true
  | .struct f => f.type? == some "predefined"

/-- Classification predicate of the custom list in split_recognizers. -/
def is_custom_entry : RecEntry → Bool
  | .bare _ => false
  | .struct f => f.type?.isNone || f.type? == some "custom"

/-- split_recognizers: partition the entries into predefined and custom,
preserving relative order within each list. -/
def split_recognizers (recs : List RecEntry) : List RecEntry × List RecEntry :=
  (recs.filter is_predefined_entry, recs.filter is_custom_entry)

/-- The copied keyword arguments of the predefined loop: every item except
the enabled, type, supported_languages and name keys. -/
def predef_copied_kwargs : RecEntry → Kwargs
  | .bare _ => ⟨none, none, none, none, none, none⟩
  | .struct f =>
    ⟨none, f.supported_language?.map SLElem.code, f.context?, f.supported_entity?,
      f.patterns?, f.global_regex_flags?⟩

/-- Merge one language scope over copied keyword arguments; the scope keys
supported_language and context win on conflict. -/
def merge_scope (k : Kwargs) (s : RecScope) : Kwargs :=
  ⟨k.name?, some s.supported_language, s.context, k.supported_entity?, k.patterns?,
    k.global_regex_flags?⟩

/-- The copied keyword arguments of the custom path: every item except the
enabled, type and supported_languages keys; the name key is kept. -/
def custom_copied_kwargs (f : RecFields) : Kwargs :=
  ⟨some f.name, f.supported_language?.map SLElem.code, f.context?, f.supported_entity?,
    f.patterns?, f.global_regex_flags?⟩

/-- create_custom_recognizers: a legacy entry with the singular
supported_language key is built once, directly from its field set; otherwise
one pattern detector is built per language scope. -/
def create_custom_recognizers (supportedLanguages : List String) (f : RecFields) :
    Except PyErr (List Detector) :=
  if f.supported_language?.isSome then
    match pattern_recognizer_from_dict (custom_copied_kwargs f) with
    | .error e => .error e
    | .ok d => .ok [d]
  else
    match get_recognizer_languages supportedLanguages (.struct f) with
    | .error e => .error e
    | .ok scopes =>
      mapExcept
        (fun s => pattern_recognizer_from_dict (merge_scope (custom_copied_kwargs f) s))
        scopes

/-- The body of the predefined loop over one entry: per scope, check enabled,
look the name up in the library and construct; a missing name makes the
looked-up value None, and calling None raises TypeError. -/
def predef_scope_loop (lib : PredefLib) (r : RecEntry) :
    List RecScope → Except PyErr (List Detector)
  | [] => .ok []
  | s :: rest =>
    match is_recognizer_enabled r with
    | .error e => .error e
    | .ok en =>
      if en then
        match lib (get_recognizer_name r) with
        | some c =>
          match predef_scope_loop lib r rest with
          | .error e => .error e
          | .ok ds =>
            .ok (mk_predef_detector c (get_recognizer_name r)
              (merge_scope (predef_copied_kwargs r) s) :: ds)
        | none => .error .typeError
      else predef_scope_loop lib r rest

/-- All instances contributed by one predefined entry. -/
def predef_entry_instances (lib : PredefLib) (langs : List String) (r : RecEntry) :
    Except PyErr (List Detector) :=
  match get_recognizer_languages langs r with
  | .error e => .error e
  | .ok scopes => predef_scope_loop lib r scopes

/-- All instances contributed by one custom entry: the enabled gate, then
create_custom_recognizers. Bare entries are never classified custom. -/
def custom_entry_instances (langs : List String) : RecEntry → Except PyErr (List Detector)
  | .bare _ => .ok []
  | .struct f =>
    if f.enabled?.getD true then create_custom_recognizers langs f else .ok []

/-- Instances of all predefined entries, in declaration order. -/
def all_predef_instances (lib : PredefLib) (langs : List String) :
    List RecEntry → Except PyErr (List Detector)
  | [] => .ok []
  | r :: rs =>
    match predef_entry_instances lib langs r with
    | .error e => .error e
    | .ok ds =>
      match all_predef_instances lib langs rs with
      | .error e => .error e
      | .ok rest => .ok (ds ++ rest)

/-- Instances of all custom entries, in declaration order. -/
def all_custom_instances (langs : List String) :
    List RecEntry → Except PyErr (List Detector)
  | [] => .ok []
  | r :: rs =>
    match custom_entry_instances langs r with
    | .error e => .error e
    | .ok ds =>
      match all_custom_instances langs rs with
      | .error e => .error e
      | .ok rest => .ok (ds ++ rest)

/-- The final flag override: every pattern-based instance has its flag bitset
overwritten with the resolved global flags. -/
def apply_global_flags (flags : Nat) (d : Detector) : Detector :=
  if d.isPattern then { d with global_regex_flags := flags } else d

/-- Modelled from the spec: the RecognizerRegistry object (not part of this
source tree) holds the ordered detector sequence, the supported-language list
and the informational flag bitset it is constructed with. -/
structure RecognizerRegistry where
  supported_languages : List String
  recognizers : List Detector
  global_regex_flags : Nat
deriving DecidableEq, Repr

/-- create_recognizer_registry: resolve the three fields with defaults, split
the entries, instantiate predefined then custom entries, overwrite the flag
bitset of every pattern-based instance, and assemble the registry. -/
def create_recognizer_registry (lib : PredefLib) (conf : Config) :
    Except PyErr RecognizerRegistry :=
  let langs := conf.supported_languages?.getD default_supported_languages
  let flags := conf.global_regex_flags?.getD default_global_regex_flags
  let pc := split_recognizers (conf.recognizers?.getD [])
  match all_predef_instances lib langs pc.1 with
  | .error e => .error e
  | .ok preInsts =>
    match all_custom_instances langs pc.2 with
    | .error e => .error e
    | .ok cusInsts =>
      .ok ⟨langs, (preInsts ++ cusInsts).map (apply_global_flags flags), flags⟩

/-- An entry carrying no language field at all. -/
def no_language_field : RecEntry → Bool
  | .bare _ => true
  | .struct f => f.supported_language?.isNone && f.supported_languages?.isNone

/-- Shape test of one supported_languages element. -/
def is_scoped_elem : SLElem → Bool
  | .code _ => false
  | .scopedMap _ _ => true

/-- The scope a scoped element carries; junk on a plain code. -/
def scope_of_elem : SLElem → RecScope
  | .code s => ⟨.code s, none⟩
  | .scopedMap l c => ⟨.code l, c⟩

/-- Concrete witness data: a library resolving exactly the name P to a
pattern-based constructor. -/
def libP : PredefLib := fun n => if n == "P" then some ⟨true⟩ else none

/-- Concrete witness data: an empty library in which no name resolves. -/
def libNone : PredefLib := fun _ => none

/-- Concrete witness data: one pattern definition. -/
def pat1 : Pattern := ⟨"p1", "\\d{5}", 1⟩

/-- The configuration of the spec example scenario for an unresolvable
predefined name, with one bare entry. -/
def c1_conf : Config := ⟨some ["en"], some [.bare "CC"], none⟩

/-- A configuration holding one predefined entry carrying the legacy singular
supported_language key, with two registry-wide languages. -/
def c2_conf : Config :=
  ⟨some ["en", "de"],
   some [.struct ⟨"P", some "predefined", none, some "en", none, none, none, none, none⟩],
   none⟩

/-- Concrete witness data: a custom legacy entry with one pattern. -/
def c2w_fields : RecFields :=
  ⟨"P", some "custom", none, some "en", none, none, some "E", some [pat1], none⟩

/- Helper lemmas shared by the claim proofs. -/

/-- When the entry is enabled and its name resolves, the predefined loop
builds one detector per scope, in order. -/
theorem predef_scope_loop_resolved (lib : PredefLib) (r : RecEntry) (c : PredefCtor)
    (hen : is_recognizer_enabled r = .ok true)
    (hlib : lib (get_recognizer_name r) = some c) :
    ∀ scopes : List RecScope,
      predef_scope_loop lib r scopes =
        .ok (scopes.map fun s =>
          mk_predef_detector c (get_recognizer_name r)
            (merge_scope (predef_copied_kwargs r) s))
  | [] => rfl
  | s :: rest => by
    simp [predef_scope_loop, hen, hlib,
      predef_scope_loop_resolved lib r c hen hlib rest]

/-- When the entry is disabled, the predefined loop builds nothing. -/
theorem predef_scope_loop_disabled (lib : PredefLib) (r : RecEntry)
    (hen : is_recognizer_enabled r = .ok false) :
    ∀ scopes : List RecScope, predef_scope_loop lib r scopes = .ok []
  | [] => rfl
  | s :: rest => by
    simp [predef_scope_loop, hen, predef_scope_loop_disabled lib r hen rest]

/-- When every element maps to an ok value described by a pure function, the
effectful map is the pure map. -/
theorem mapExcept_eq_map (g : α → Except PyErr β) (g0 : α → β) :
    ∀ l : List α, (∀ a ∈ l, g a = .ok (g0 a)) → mapExcept g l = .ok (l.map g0)
  | [], _ => rfl
  | a :: as, h => by
    have ha := h a (List.mem_cons_self a as)
    have hrest := mapExcept_eq_map g g0 as fun x hx => h x (List.mem_cons_of_mem a hx)
    simp [mapExcept, ha, hrest]

/-- When every element maps to some ok value, the effectful map is ok and
preserves length. -/
theorem mapExcept_length (g : α → Except PyErr β) :
    ∀ l : List α, (∀ a ∈ l, ∃ b, g a = .ok b) →
      ∃ bs, mapExcept g l = .ok bs ∧ bs.length = l.length
  | [], _ => ⟨[], rfl, rfl⟩
  | a :: as, h => by
    obtain ⟨b, hb⟩ := h a (List.mem_cons_self a as)
    obtain ⟨bs, hbs, hlen⟩ :=
      mapExcept_length g as fun x hx => h x (List.mem_cons_of_mem a hx)
    exact ⟨b :: bs, by simp [mapExcept, hb, hbs], by simp [hlen]⟩

/-- An entry with no language field expands to one scope per registry-wide
supported language, each carrying the entry context. -/
theorem get_languages_no_field (langs : List String) (r : RecEntry)
    (h : no_language_field r = true) :
    get_recognizer_languages langs r =
      .ok (langs.map fun l => ⟨.code l, get_recognizer_context r⟩) := by
  cases r with
  | bare n => simp [get_recognizer_languages, get_recognizer_context]
  | struct f =>
    simp [no_language_field, Option.isNone_iff_eq_none] at h
    simp [get_recognizer_languages, h.2, get_recognizer_context]

/-- Membership in the flag-override image forces the flag value on every
pattern-based detector. -/
theorem mem_apply_global_flags (flags : Nat) (l : List Detector) (d : Detector)
    (hd : d ∈ l.map (apply_global_flags flags)) (hp : d.isPattern = true) :
    d.global_regex_flags = flags := by
  rcases List.mem_map.mp hd with ⟨d0, _, rfl⟩
  by_cases h0 : d0.isPattern
  · simp [apply_global_flags, h0]
  · simp [apply_global_flags, h0] at hp ⊢

/-- With no inline mapping, configuration resolution always succeeds. -/
theorem get_configuration_none_ok (fs : String → FileRes) (d : Config)
    (cf : Option String) :
    ∃ c, get_configuration fs d cf none = .ok c := by
  by_cases hcf : cf_truthy cf = true
  · cases hfs : fs (cf.getD "") with
    | parsed c2 =>
      exact ⟨add_missing_keys configEmpty c2,
        by simp [get_configuration, hcf, rc_truthy, hfs]⟩
    | ioError =>
      exact ⟨add_missing_keys configEmpty d,
        by simp [get_configuration, hcf, rc_truthy, hfs]⟩
    | parseError =>
      exact ⟨add_missing_keys configEmpty d,
        by simp [get_configuration, hcf, rc_truthy, hfs]⟩
  · have hcf2 : cf_truthy cf = false := by
      cases hx : cf_truthy cf
      · rfl
      · exact absurd hx hcf
    exact ⟨add_missing_keys configEmpty d,
      by simp [get_configuration, hcf2, rc_truthy]⟩

/- Claim theorems. -/

/-- C1: the spec says an unresolvable predefined name is recovered silently,
contributing zero instances without an exception; the code instead calls the
None result of the library lookup, which raises TypeError. This theorem
evaluates the code at the spec example input: one bare predefined entry whose
name resolves to nothing, registry languages en. -/
theorem c1_unresolvable_name_raises :
    create_recognizer_registry libNone c1_conf = .error .typeError := by rfl

/-- C3: supplying a truthy configuration file path together with a truthy
inline configuration mapping raises ValueError, for every file system, so no
file read can influence the outcome and no configuration is resolved. -/
theorem c3_both_sources_value_error (fs : String → FileRes) (d : Config)
    (cf : Option String) (rc : Option Config)
    (hcf : cf_truthy cf = true) (hrc : rc_truthy rc = true) :
    get_configuration fs d cf rc = .error .valueError := by
  simp [get_configuration, hcf, hrc]

/-- Witness for C3 at a concrete file path and inline mapping. -/
theorem c3_witness :
    get_configuration (fun _ => .ioError) configEmpty (some "conf.yaml")
      (some ⟨some ["en"], none, none⟩) = .error .valueError :=
  c3_both_sources_value_error (fun _ => .ioError) configEmpty (some "conf.yaml")
    (some ⟨some ["en"], none, none⟩) (by decide) (by decide)

/-- C6: a file path whose read fails resolves to the same configuration as
passing no path at all, and therefore to an identical assembled registry. -/
theorem c6_missing_file_fallback (fs : String → FileRes) (d : Config) (p : String)
    (lib : PredefLib) (h : fs p = .ioError) :
    get_configuration fs d (some p) none = get_configuration fs d none none ∧
    (get_configuration fs d (some p) none).map (create_recognizer_registry lib) =
      (get_configuration fs d none none).map (create_recognizer_registry lib) := by
  have heq : get_configuration fs d (some p) none = get_configuration fs d none none := by
    by_cases hp : p = ""
    · subst hp
      simp [get_configuration, cf_truthy, rc_truthy]
    · simp [get_configuration, cf_truthy, rc_truthy, h, hp]
  exact ⟨heq, by rw [heq]⟩

/-- Witness for C6 at a concrete absent path. -/
theorem c6_witness :
    get_configuration (fun _ => .ioError) ⟨some ["en"], some [], some 26⟩
        (some "missing.yaml") none =
      get_configuration (fun _ => .ioError) ⟨some ["en"], some [], some 26⟩ none none ∧
    (get_configuration (fun _ => .ioError) ⟨some ["en"], some [], some 26⟩
        (some "missing.yaml") none).map (create_recognizer_registry libP) =
      (get_configuration (fun _ => .ioError) ⟨some ["en"], some [], some 26⟩
        none none).map (create_recognizer_registry libP) :=
  c6_missing_file_fallback (fun _ => .ioError) ⟨some ["en"], some [], some 26⟩
    "missing.yaml" libP rfl

/-- C9: an empty inline mapping together with any file path never raises the
usage error; it behaves exactly as if no inline configuration was supplied,
and resolution succeeds. -/
theorem c9_empty_mapping_no_usage_error (fs : String → FileRes) (d : Config)
    (p : String) :
    get_configuration fs d (some p) (some configEmpty) =
      get_configuration fs d (some p) none ∧
    ∃ c, get_configuration fs d (some p) (some configEmpty) = .ok c := by
  have hrc : rc_truthy (some configEmpty) = false := by
    simp [rc_truthy]
  have heq : get_configuration fs d (some p) (some configEmpty) =
      get_configuration fs d (some p) none := by
    simp [get_configuration, hrc, rc_truthy]
  obtain ⟨c, hc⟩ := get_configuration_none_ok fs d (some p)
  exact ⟨heq, c, heq.trans hc⟩

/-- A keyword set with a non-empty patterns list and a present entity always
constructs. -/
theorem pattern_from_dict_ok (k : Kwargs)
    (hp : ¬ k.patterns?.getD [] = []) (he : k.supported_entity?.isNone = false) :
    ∃ b, pattern_recognizer_from_dict k = .ok b :=
  ⟨⟨"PatternRecognizer", true, k.name?, k.supported_language?, k.context?,
      k.supported_entity?, k.patterns?.getD [],
      k.global_regex_flags?.getD default_global_regex_flags⟩, by
    unfold pattern_recognizer_from_dict
    rw [if_neg hp, if_neg (by simp [he])]⟩

/-- C2 counterexample: a predefined entry carrying the legacy singular
supported_language is still expanded, producing one instance per
registry-wide language; with two registry languages it yields two instances,
not one as the claim states. -/
theorem c2_counterexample :
    (create_recognizer_registry libP c2_conf).map (fun r => r.recognizers.length) =
      .ok 2 ∧ (2 : Nat) ≠ 1 :=
  ⟨by rfl, by decide⟩

/-- C2 amended: only the custom path bypasses expansion for a legacy entry
with singular supported_language, yielding exactly one instance; a predefined
entry carrying the same field is still expanded to one instance per
registry-wide supported language. -/
theorem c2_amended_legacy_single (lib : PredefLib) (langs : List String)
    (f : RecFields) (c : PredefCtor)
    (hleg : f.supported_language?.isSome = true)
    (hen : f.enabled?.getD true = true)
    (hpat : ¬ f.patterns?.getD [] = [])
    (hent : f.supported_entity?.isNone = false)
    (hsl : f.supported_languages? = none)
    (hlib : lib f.name = some c) :
    (custom_entry_instances langs (.struct f)).map List.length = .ok 1 ∧
    (predef_entry_instances lib langs (.struct f)).map List.length = .ok langs.length := by
  constructor
  · obtain ⟨b, hb⟩ := pattern_from_dict_ok (custom_copied_kwargs f)
      (by simpa [custom_copied_kwargs] using hpat)
      (by simpa [custom_copied_kwargs] using hent)
    simp [custom_entry_instances, hen, create_custom_recognizers, hleg, hb, Except.map]
  · have hen2 : is_recognizer_enabled (.struct f) = .ok true := by
      simp [is_recognizer_enabled, hen]
    have hlib2 : lib (get_recognizer_name (.struct f)) = some c := by
      simpa [get_recognizer_name] using hlib
    have hsc : get_recognizer_languages langs (.struct f) =
        .ok (langs.map fun l => ⟨.code l, f.context?⟩) := by
      simp [get_recognizer_languages, hsl]
    simp [predef_entry_instances, hsc,
      predef_scope_loop_resolved lib (.struct f) c hen2 hlib2, Except.map]

/-- Witness for the amended C2 at a concrete legacy entry and two registry
languages. -/
theorem c2_amended_witness :
    (custom_entry_instances ["en", "de"] (.struct c2w_fields)).map List.length =
      .ok 1 ∧
    (predef_entry_instances libP ["en", "de"] (.struct c2w_fields)).map List.length =
      .ok 2 :=
  c2_amended_legacy_single libP ["en", "de"] c2w_fields ⟨true⟩ rfl rfl
    (by decide) rfl rfl (by decide)

/-- C4: an enabled entry with no language field at all, predefined with a
resolvable name or custom with a well-formed pattern set, contributes exactly
one instance per registry-wide supported language. -/
theorem c4_no_language_fanout (lib : PredefLib) (langs : List String)
    (r : RecEntry) (f : RecFields) (c : PredefCtor)
    (hr : no_language_field r = true)
    (hen : is_recognizer_enabled r = .ok true)
    (hlib : lib (get_recognizer_name r) = some c)
    (hf1 : f.supported_language? = none)
    (hf2 : f.supported_languages? = none)
    (hfe : f.enabled?.getD true = true)
    (hpat : ¬ f.patterns?.getD [] = [])
    (hent : f.supported_entity?.isNone = false) :
    (predef_entry_instances lib langs r).map List.length = .ok langs.length ∧
    (custom_entry_instances langs (.struct f)).map List.length = .ok langs.length := by
  constructor
  · simp [predef_entry_instances, get_languages_no_field langs r hr,
      predef_scope_loop_resolved lib r c hen hlib, Except.map]
  · have hg : ∀ s ∈ (langs.map fun l => (⟨.code l, f.context?⟩ : RecScope)),
        ∃ b, pattern_recognizer_from_dict
          (merge_scope (custom_copied_kwargs f) s) = .ok b := by
      intro s _
      exact pattern_from_dict_ok _
        (by simpa [merge_scope, custom_copied_kwargs] using hpat)
        (by simpa [merge_scope, custom_copied_kwargs] using hent)
    obtain ⟨bs, hbs, hlen⟩ := mapExcept_length _ _ hg
    have hsc : get_recognizer_languages langs (.struct f) =
        .ok (langs.map fun l => ⟨.code l, f.context?⟩) := by
      simp [get_recognizer_languages, hf2]
    simp [custom_entry_instances, hfe, create_custom_recognizers, hf1, hsc, hbs,
      Except.map, hlen]

/-- Concrete witness data: a custom entry with no language field. -/
def c4w_fields : RecFields :=
  ⟨"Z", none, none, none, none, none, some "E", some [pat1], none⟩

/-- Witness for C4 at a concrete bare predefined entry and a concrete custom
entry, with two registry languages. -/
theorem c4_witness :
    (predef_entry_instances libP ["en", "de"] (.bare "P")).map List.length = .ok 2 ∧
    (custom_entry_instances ["en", "de"] (.struct c4w_fields)).map List.length = .ok 2 :=
  c4_no_language_fanout libP ["en", "de"] (.bare "P") c4w_fields ⟨true⟩ rfl
    (by decide) (by decide) rfl rfl rfl (by decide) rfl

/-- C5: a structured entry with enabled false contributes zero instances:
the predefined path returns the empty list whenever its scope computation
completes, and the custom path returns the empty list unconditionally. -/
theorem c5_disabled_zero_instances (lib : PredefLib) (langs : List String)
    (f : RecFields) (h : f.enabled? = some false) :
    predef_entry_instances lib langs (.struct f) =
      (get_recognizer_languages langs (.struct f)).map
        (fun _ => ([] : List Detector)) ∧
    custom_entry_instances langs (.struct f) = .ok [] := by
  have hen : is_recognizer_enabled (.struct f) = .ok false := by
    simp [is_recognizer_enabled, h]
  constructor
  · cases hsc : get_recognizer_languages langs (.struct f) with
    | error e => simp [predef_entry_instances, hsc, Except.map]
    | ok scopes =>
      simp [predef_entry_instances, hsc, Except.map,
        predef_scope_loop_disabled lib (.struct f) hen scopes]
  · simp [custom_entry_instances, h]

/-- Concrete witness data: a disabled predefined entry. -/
def c5w_fields : RecFields :=
  ⟨"Z", some "predefined", some false, none, some [.code "en"], none, none, none, none⟩

/-- Witness for C5 at a concrete disabled entry. -/
theorem c5_witness :
    predef_entry_instances libP ["en"] (.struct c5w_fields) =
      (get_recognizer_languages ["en"] (.struct c5w_fields)).map
        (fun _ => ([] : List Detector)) ∧
    custom_entry_instances ["en"] (.struct c5w_fields) = .ok [] :=
  c5_disabled_zero_instances libP ["en"] c5w_fields rfl

/-- C7: the shape of the first element of a non-empty supported_languages
list decides the expansion of the whole list: a plain code first element
makes every element a scope with context none, and a list of scoped mappings
yields one scope per mapping carrying its own context. -/
theorem c7_first_element_shape (langs : List String) (f : RecFields)
    (e : SLElem) (rest : List SLElem)
    (hsl : f.supported_languages? = some (e :: rest)) :
    ((∃ s, e = SLElem.code s) →
      get_recognizer_languages langs (.struct f) =
        .ok ((e :: rest).map fun x => ⟨x, none⟩)) ∧
    ((∀ x ∈ e :: rest, is_scoped_elem x = true) →
      get_recognizer_languages langs (.struct f) =
        .ok ((e :: rest).map scope_of_elem)) := by
  constructor
  · rintro ⟨s, rfl⟩
    simp [get_recognizer_languages, hsl]
  · intro hall
    have hmap : ∀ x ∈ e :: rest, scoped_elem_to_scope x = .ok (scope_of_elem x) := by
      intro x hx
      cases x with
      | code s => exact absurd (hall (SLElem.code s) hx) (by simp [is_scoped_elem])
      | scopedMap l c => rfl
    cases e with
    | code s =>
      exact absurd (hall (SLElem.code s) (List.mem_cons_self _ _))
        (by simp [is_scoped_elem])
    | scopedMap l c =>
      simp [get_recognizer_languages, hsl,
        mapExcept_eq_map scoped_elem_to_scope scope_of_elem _ hmap]

/-- Concrete witness data: a plain-code supported_languages list. -/
def c7a_fields : RecFields :=
  ⟨"A", none, none, none, some [.code "en", .code "de"], none, none, none, none⟩

/-- Concrete witness data: a scoped supported_languages list. -/
def c7b_fields : RecFields :=
  ⟨"B", none, none, none, some [.scopedMap "en" (some ["zip"]), .scopedMap "de" none],
    none, none, none, none⟩

/-- Witness for C7 at one concrete list of each shape. -/
theorem c7_witness :
    get_recognizer_languages ["fr"] (.struct c7a_fields) =
      .ok [⟨.code "en", none⟩, ⟨.code "de", none⟩] ∧
    get_recognizer_languages ["fr"] (.struct c7b_fields) =
      .ok [⟨.code "en", some ["zip"]⟩, ⟨.code "de", none⟩] :=
  ⟨(c7_first_element_shape ["fr"] c7a_fields (.code "en") [.code "de"] rfl).1
      ⟨"en", rfl⟩,
   (c7_first_element_shape ["fr"] c7b_fields (.scopedMap "en" (some ["zip"]))
      [.scopedMap "de" none] rfl).2 (by decide)⟩

/-- C8: whenever registry creation succeeds, the registry carries the
resolved global flags, and every pattern-based instance has its flag bitset
equal to that resolved value, whatever per-recognizer flag the entry set. -/
theorem c8_flags_override (lib : PredefLib) (conf : Config)
    (reg : RecognizerRegistry)
    (h : create_recognizer_registry lib conf = .ok reg) :
    reg.global_regex_flags =
      conf.global_regex_flags?.getD default_global_regex_flags ∧
    ∀ d ∈ reg.recognizers, d.isPattern = true →
      d.global_regex_flags =
        conf.global_regex_flags?.getD default_global_regex_flags := by
  simp only [create_recognizer_registry] at h
  rcases hA : all_predef_instances lib
      (conf.supported_languages?.getD default_supported_languages)
      (split_recognizers (conf.recognizers?.getD [])).1 with e | preInsts <;>
    rw [hA] at h
  · simp at h
  · rcases hB : all_custom_instances
        (conf.supported_languages?.getD default_supported_languages)
        (split_recognizers (conf.recognizers?.getD [])).2 with e2 | cusInsts <;>
      rw [hB] at h
    · simp at h
    · simp only [Except.ok.injEq] at h
      subst h
      exact ⟨rfl, fun d hd hp => mem_apply_global_flags _ _ d hd hp⟩

/-- Concrete witness data: a custom legacy entry setting its own flag value. -/
def c8_fields : RecFields :=
  ⟨"Z", none, none, some "en", none, none, some "E", some [pat1], some 99⟩

/-- Concrete witness data: a configuration setting global_regex_flags to 7. -/
def c8_conf : Config := ⟨some ["en"], some [.struct c8_fields], some 7⟩

/-- Concrete witness data: the detector the c8 configuration produces. -/
def c8_det : Detector :=
  ⟨"PatternRecognizer", true, some "Z", some (.code "en"), none, some "E", [pat1], 7⟩

/-- Concrete witness data: the registry the c8 configuration produces. -/
def c8_reg : RecognizerRegistry := ⟨["en"], [c8_det], 7⟩

/-- Witness for C8: the per-recognizer flag value 99 is overwritten with the
configured value 7. -/
theorem c8_witness :
    c8_reg.global_regex_flags = 7 ∧ c8_det.global_regex_flags = 7 :=
  ⟨(c8_flags_override libP c8_conf c8_reg (by decide)).1,
   (c8_flags_override libP c8_conf c8_reg (by decide)).2 c8_det (by decide) rfl⟩

/-- C10: the enabled check on a bare-name entry is a substring test: a name
not containing the substring enabled is treated as enabled, while a name
containing it raises TypeError from the string indexing, which makes registry
creation fail on a configuration holding that entry. -/
theorem c10_bare_enabled_substring (n : String) :
    (str_contains_sub n "enabled" = false →
      is_recognizer_enabled (.bare n) = .ok true) ∧
    (str_contains_sub n "enabled" = true →
      is_recognizer_enabled (.bare n) = .error .typeError ∧
      ∀ (lib : PredefLib) (l : String) (ls : List String) (gf : Option Nat),
        create_recognizer_registry lib ⟨some (l :: ls), some [.bare n], gf⟩ =
          .error .typeError) := by
  constructor
  · intro hsub
    simp [is_recognizer_enabled, hsub]
  · intro hsub
    have hen : is_recognizer_enabled (.bare n) = .error .typeError := by
      simp [is_recognizer_enabled, hsub]
    refine ⟨hen, fun lib l ls gf => ?_⟩
    simp [create_recognizer_registry, split_recognizers, all_predef_instances,
      predef_entry_instances, get_recognizer_languages, predef_scope_loop, hen,
      is_predefined_entry, is_custom_entry, all_custom_instances, List.filter]

/-- Witness for C10 at one name of each kind. -/
theorem c10_witness :
    is_recognizer_enabled (.bare "ZipRecognizer") = .ok true ∧
    create_recognizer_registry libNone
      ⟨some ["en"], some [.bare "XenabledY"], none⟩ = .error .typeError :=
  ⟨(c10_bare_enabled_substring "ZipRecognizer").1 (by decide),
   ((c10_bare_enabled_substring "XenabledY").2 (by decide)).2 libNone "en" [] none⟩

end Presidio
